import Mathlib

/-!
Shallow embedding of the drawing-session metrics and snapshot-history engine
of the Sketch-Master drawing game.

Embedded pieces:
* the stroke-metrics record and its tracker operations of the drawing-canvas
  component (metrics init, saveState, restoreState, clear, undo, redo,
  getSnapshot, getMetrics, and the in-stroke speed update of draw);
* the derived-score computation getMetricsPayload of the application root.

Modelling conventions:
* JavaScript numbers become rationals (ℚ); the square root inside the
  in-stroke distance computation forces the speed-update model onto ℝ.
* Serialized canvas snapshots (toDataURL blobs) become opaque String values;
  the drawing surface is an Option String, none when canvasRef.current is
  null (no live canvas).
* The stacks are Lists with the TOP at the HEAD: the array push at the end
  becomes cons, pop becomes head/tail, and shift (evicting the oldest
  element at the front of the array) becomes dropLast.
-/

/-- Per-surface stroke metrics, mirroring the DrawingMetrics interface:
strokeCount, lastStrokeTime, hesitationSeconds, totalDrawingTime,
clearCount, undoCount, averageSpeed. Counters are naturals; times and the
smoothed speed are rationals. -/
structure DrawingMetrics where
  strokeCount : ℕ
  lastStrokeTime : ℚ
  hesitationSeconds : ℚ
  totalDrawingTime : ℚ
  clearCount : ℕ
  undoCount : ℕ
  averageSpeed : ℚ
  deriving DecidableEq, Repr

/-- Initial metrics of a freshly mounted surface: all counters and
accumulators are 0 and lastStrokeTime is the mount time t0
(the Date.now() at initialization). -/
def initMetrics (t0 : ℚ) : DrawingMetrics :=
  { strokeCount := 0
    lastStrokeTime := t0
    hesitationSeconds := 0
    totalDrawingTime := 0
    clearCount := 0
    undoCount := 0
    averageSpeed := 0 }

/-- Rounding to two decimal places, modelling parseFloat(x.toFixed(2)). -/
def round2 (q : ℚ) : ℚ := (round (100 * q) : ℚ) / 100

/-- The payload assembled by getMetricsPayload: phase, time block,
confidence block (score, trend, hesitation, redraw rate), efficiency block
(score, panic flag), clarity block (score, early-recognizability flag) and
commentary block (cooldown flag, comment count). -/
structure MetricsPayload where
  phase : String
  time_remaining_pct : ℚ
  confidence_score : ℚ
  trend : String
  hesitation_seconds : ℚ
  redraw_rate : ℚ
  efficiency_score : ℚ
  panic_detected : Bool
  clarity_score : ℚ
  recognizable_early : Bool
  cooldown_active : Bool
  comments_used : ℕ
  deriving DecidableEq, Repr

/-- Core of getMetricsPayload once the canvas metrics are known to exist:
time_remaining_pct = timeLeft / 60;
confidence = clamp01(strokeCount/40 + averageSpeed/200 − hesitation/10);
efficiency = clamp01((strokeCount / (totalDrawingTime/1000 + 1)) * 5);
clarity = clamp01(strokeCount/25);
where clamp01 x = min 1 (max 0 x), each rounded to two decimals;
redraw_rate = round2(undoCount / (strokeCount + 1)) with no clamp;
panic_detected = time_remaining_pct < 0.15 && averageSpeed > 120;
trend = rising if averageSpeed > 60, else falling if hesitation > 3,
else stable; recognizable_early = strokeCount > 15;
cooldown_active = (now − lastCommentTime) < 5000. -/
def metricsPayload (m : DrawingMetrics) (timeLeft : ℚ) (phase : String)
    (now lastCommentTime : ℚ) (commentCount : ℕ) : MetricsPayload :=
  let time_remaining_pct := timeLeft / 60
  let confidence_score :=
    min 1 (max 0 ((m.strokeCount : ℚ) / 40 + m.averageSpeed / 200
      - m.hesitationSeconds / 10))
  let efficiency_score :=
    min 1 (max 0 (((m.strokeCount : ℚ) / (m.totalDrawingTime / 1000 + 1)) * 5))
  let clarity_score := min 1 (max 0 ((m.strokeCount : ℚ) / 25))
  { phase := phase
    time_remaining_pct := time_remaining_pct
    confidence_score := round2 confidence_score
    trend := if m.averageSpeed > 60 then "rising"
      else if m.hesitationSeconds > 3 then "falling" else "stable"
    hesitation_seconds := m.hesitationSeconds
    redraw_rate := round2 ((m.undoCount : ℚ) / ((m.strokeCount : ℚ) + 1))
    efficiency_score := round2 efficiency_score
    panic_detected :=
      decide (time_remaining_pct < 15 / 100) && decide (m.averageSpeed > 120)
    clarity_score := round2 clarity_score
    recognizable_early := decide (m.strokeCount > 15)
    cooldown_active := decide (now - lastCommentTime < 5000)
    comments_used := commentCount }

/-- Full getMetricsPayload including the early return null when
canvasRef yields no metrics. -/
def getMetricsPayload (canvasMetrics : Option DrawingMetrics) (timeLeft : ℚ)
    (phase : String) (now lastCommentTime : ℚ) (commentCount : ℕ) :
    Option MetricsPayload :=
  canvasMetrics.map
    (fun m => metricsPayload m timeLeft phase now lastCommentTime commentCount)

/-- History depth bound MAX_HISTORY of the drawing canvas. -/
def MAX_HISTORY : ℕ := 50

/-- State of one drawing-canvas instance: the surface (some dataUrl when a
live canvas exists, none when canvasRef.current is null), the undo and redo
stacks of serialized snapshots (top at the head), the isDrawing flag and the
mutable metrics record. -/
structure CanvasModel where
  surface : Option String
  undoStack : List String
  redoStack : List String
  isDrawing : Bool
  metrics : DrawingMetrics
  deriving DecidableEq, Repr

/-- Serialization of the canvas right after it is filled with the
background color #1e293b: the blank surface. -/
def blankSurface : String := "#1e293b"

/-- Freshly mounted canvas at time t0: blank live surface, empty stacks,
not drawing, initial metrics. -/
def initialModel (t0 : ℚ) : CanvasModel :=
  { surface := some blankSurface
    undoStack := []
    redoStack := []
    isDrawing := false
    metrics := initMetrics t0 }

/-- saveState: returns unchanged when no live canvas exists; otherwise
pushes the serialized current surface (toDataURL) onto undoStack, evicts
the oldest entry when the length exceeds MAX_HISTORY (array shift, here
dropLast since the top is the head), and clears redoStack. -/
def saveState (c : CanvasModel) : CanvasModel :=
  match c.surface with
  | none => c
  | some dataUrl =>
    let pushed := dataUrl :: c.undoStack
    { c with
      undoStack := if MAX_HISTORY < pushed.length then pushed.dropLast else pushed
      redoStack := [] }

/-- clear: saveState first, then increments clearCount, then fills the
surface with the background color when a live canvas exists. Note the
counter increment is NOT guarded by the canvas check. -/
def clear (c : CanvasModel) : CanvasModel :=
  let c1 := saveState c
  let c2 :=
    { c1 with metrics := { c1.metrics with clearCount := c1.metrics.clearCount + 1 } }
  match c2.surface with
  | none => c2
  | some _ => { c2 with surface := some blankSurface }

/-- undo: no-op when undoStack is empty or no live canvas exists; otherwise
increments undoCount, pushes the serialized current surface onto redoStack,
pops the most recent undoStack entry and restores it to the surface
(restoreState). -/
def undo (c : CanvasModel) : CanvasModel :=
  match c.undoStack, c.surface with
  | [], _ => c
  | _ :: _, none => c
  | previousState :: rest, some currentState =>
    { c with
      metrics := { c.metrics with undoCount := c.metrics.undoCount + 1 }
      redoStack := currentState :: c.redoStack
      undoStack := rest
      surface := some previousState }

/-- redo: no-op when redoStack is empty or no live canvas exists; otherwise
pushes the serialized current surface onto undoStack (with no length
check), pops the most recent redoStack entry and restores it. Touches no
metrics counter. -/
def redo (c : CanvasModel) : CanvasModel :=
  match c.redoStack, c.surface with
  | [], _ => c
  | _ :: _, none => c
  | nextState :: rest, some currentState =>
    { c with
      undoStack := currentState :: c.undoStack
      redoStack := rest
      surface := some nextState }

/-- JPEG re-encoding of a surface snapshot and extraction of its base64
payload (toDataURL with image/jpeg at quality 0.8, split after the comma);
modelled as an opaque injective re-serialization. -/
def jpegBase64 (dataUrl : String) : String := dataUrl

/-- getSnapshot: empty string when no live canvas exists, otherwise the
base64 payload of the JPEG serialization of the surface. -/
def getSnapshot (c : CanvasModel) : String :=
  match c.surface with
  | none => ""
  | some s => jpegBase64 s

/-- getMetrics at time now (Date.now() in ms): when not drawing, first
recomputes hesitationSeconds as (now − lastStrokeTime) / 1000 and stores
it; then returns a copy of the metrics. Returns the metrics copy and the
post-call canvas state. -/
def getMetrics (c : CanvasModel) (now : ℚ) : DrawingMetrics × CanvasModel :=
  if c.isDrawing then (c.metrics, c)
  else
    let m :=
      { c.metrics with hesitationSeconds := (now - c.metrics.lastStrokeTime) / 1000 }
    (m, { c with metrics := m })

/-- Abstract operations a caller can perform on the canvas state: the three
history operations, clear, and an arbitrary surface mutation (drawing)
setting the surface content. -/
inductive Op where
  | save : Op
  | undoOp : Op
  | redoOp : Op
  | clearOp : Op
  | mutate : String → Op
  deriving DecidableEq, Repr

/-- Apply one operation to the canvas state. -/
def applyOp (c : CanvasModel) : Op → CanvasModel
  | Op.save => saveState c
  | Op.undoOp => undo c
  | Op.redoOp => redo c
  | Op.clearOp => clear c
  | Op.mutate s => { c with surface := some s }

/-- Run a sequence of operations left to right. -/
def run (c : CanvasModel) : List Op → CanvasModel
  | [] => c
  | op :: ops => run (applyOp c op) ops

/-- In-stroke state of the draw handler relevant to the speed update: the
lastPos reference (none right after a stroke starts) and the running
averageSpeed. Coordinates live in ℝ because the distance is a square
root. -/
structure SpeedState where
  lastPos : Option (ℝ × ℝ)
  averageSpeed : ℝ

/-- One pointer sample (x, y) in the draw handler: when a previous point
exists, the Euclidean distance to it is computed with Math.sqrt and
averageSpeed becomes (averageSpeed + dist) / 2; lastPos is then set to
(x, y). -/
noncomputable def draw (st : SpeedState) (x y : ℝ) : SpeedState :=
  match st.lastPos with
  | some last =>
    let dist := Real.sqrt ((x - last.1) ^ 2 + (y - last.2) ^ 2)
    { lastPos := some (x, y), averageSpeed := (st.averageSpeed + dist) / 2 }
  | none => { st with lastPos := some (x, y) }

/-- Fold the draw handler over a list of pointer samples. -/
noncomputable def runDraw (st : SpeedState) : List (ℝ × ℝ) → SpeedState
  | [] => st
  | p :: ps => runDraw (draw st p.1 p.2) ps

/-- Euclidean distance between two pointer samples, as the draw handler
computes it (square root of the sum of squared coordinate differences). -/
noncomputable def euclid (p q : ℝ × ℝ) : ℝ :=
  Real.sqrt ((q.1 - p.1) ^ 2 + (q.2 - p.2) ^ 2)

/-- Distances from a current point through a list of subsequent samples. -/
noncomputable def distList : ℝ × ℝ → List (ℝ × ℝ) → List ℝ
  | _, [] => []
  | p, q :: ps => euclid p q :: distList q ps

/-- Consecutive Euclidean distances of a sample sequence. -/
noncomputable def pointDists : List (ℝ × ℝ) → List ℝ
  | [] => []
  | p :: ps => distList p ps

/-- The smoothing recurrence of the specification: a0 = 0 and
an = (a(n-1) + dn) / 2 over a distance sequence. -/
noncomputable def avgRec (ds : List ℝ) : ℝ :=
  ds.foldl (fun a d => (a + d) / 2) 0

/-- Collinear pointer samples whose consecutive distances are 10, 20, 30. -/
noncomputable def samplePts : List (ℝ × ℝ) := [(0, 0), (10, 0), (30, 0), (60, 0)]

/-- Metrics with five undos and no stroke, reachable by clearing five times
and undoing five times. -/
def mRedraw : DrawingMetrics :=
  { strokeCount := 0
    lastStrokeTime := 0
    hesitationSeconds := 0
    totalDrawingTime := 0
    clearCount := 5
    undoCount := 5
    averageSpeed := 0 }

/-- Live canvas whose undo stack holds one snapshot. -/
def cRoundTrip : CanvasModel :=
  { surface := some "cur"
    undoStack := ["prev"]
    redoStack := []
    isDrawing := false
    metrics := initMetrics 0 }

/-- Live canvas with a pending redo entry. -/
def cLiveRedo : CanvasModel :=
  { surface := some "s"
    undoStack := []
    redoStack := ["r"]
    isDrawing := false
    metrics := initMetrics 0 }

/-- Unavailable surface (canvasRef.current null) with a pending redo entry
and one undo entry. -/
def cNoSurface : CanvasModel :=
  { surface := none
    undoStack := ["u"]
    redoStack := ["r"]
    isDrawing := false
    metrics := initMetrics 7 }

/-- Live canvas with both stacks empty. -/
def cEmptyStacks : CanvasModel :=
  { surface := some "s"
    undoStack := []
    redoStack := []
    isDrawing := false
    metrics := initMetrics 0 }

/-- Idle canvas (no stroke in progress) with lastStrokeTime 1000 ms. -/
def cIdle : CanvasModel :=
  { surface := some "s"
    undoStack := []
    redoStack := []
    isDrawing := false
    metrics := initMetrics 1000 }

/-- Canvas in the middle of a stroke. -/
def cMidStroke : CanvasModel :=
  { surface := some "s"
    undoStack := []
    redoStack := []
    isDrawing := true
    metrics := initMetrics 1000 }

/-- Operation sequence pushing 51 successive surface states: each round
mutates the surface to a fresh value and saves it. -/
def push51Ops : List Op :=
  ((List.range 51).map (fun i => [Op.mutate (toString (i + 1)), Op.save])).flatten

/-- Rounding over ℚ is monotone. -/
theorem round_mono_q {a b : ℚ} (h : a ≤ b) : round a ≤ round b := by
  rw [round_eq, round_eq]
  exact Int.floor_le_floor (by linarith)

/-- Two-decimal rounding preserves nonnegativity. -/
theorem round2_nonneg {q : ℚ} (h0 : 0 ≤ q) : 0 ≤ round2 q := by
  have h := round_mono_q (by linarith : (0 : ℚ) ≤ 100 * q)
  rw [round_zero] at h
  have : (0 : ℚ) ≤ (round (100 * q) : ℚ) := by exact_mod_cast h
  unfold round2
  linarith

/-- Two-decimal rounding preserves the upper bound 1. -/
theorem round2_le_one {q : ℚ} (h1 : q ≤ 1) : round2 q ≤ 1 := by
  have h : round (100 * q) ≤ round ((100 : ℚ)) := round_mono_q (by linarith)
  rw [show ((100 : ℚ)) = ((100 : ℕ) : ℚ) by norm_num, round_natCast] at h
  have : ((round (100 * q) : ℤ) : ℚ) ≤ 100 := by exact_mod_cast h
  unfold round2
  linarith

/-- Clamping with min 1 (max 0 x) always lands in the unit interval. -/
theorem clamp01_nonneg (x : ℚ) : 0 ≤ min 1 (max 0 x) :=
  le_min (by norm_num) (le_max_left 0 x)

/-- Clamping with min 1 (max 0 x) is bounded by 1. -/
theorem clamp01_le_one (x : ℚ) : min 1 (max 0 x) ≤ 1 := min_le_left 1 _

/-- C2 (amended): for every metrics record and every externally supplied
timeLeft, the confidence, efficiency and clarity scores of the payload lie
in [0, 1], and the redraw rate is nonnegative; the redraw rate is NOT
bounded by 1 (see the counterexample). -/
theorem c2_scores_clamped (m : DrawingMetrics) (timeLeft : ℚ) (phase : String)
    (now lastCommentTime : ℚ) (commentCount : ℕ) :
    (0 ≤ (metricsPayload m timeLeft phase now lastCommentTime commentCount).confidence_score
      ∧ (metricsPayload m timeLeft phase now lastCommentTime commentCount).confidence_score ≤ 1)
    ∧ (0 ≤ (metricsPayload m timeLeft phase now lastCommentTime commentCount).efficiency_score
      ∧ (metricsPayload m timeLeft phase now lastCommentTime commentCount).efficiency_score ≤ 1)
    ∧ (0 ≤ (metricsPayload m timeLeft phase now lastCommentTime commentCount).clarity_score
      ∧ (metricsPayload m timeLeft phase now lastCommentTime commentCount).clarity_score ≤ 1)
    ∧ 0 ≤ (metricsPayload m timeLeft phase now lastCommentTime commentCount).redraw_rate := by
  refine ⟨⟨?_, ?_⟩, ⟨?_, ?_⟩, ⟨?_, ?_⟩, ?_⟩ <;>
    simp only [metricsPayload]
  · exact round2_nonneg (clamp01_nonneg _)
  · exact round2_le_one (clamp01_le_one _)
  · exact round2_nonneg (clamp01_nonneg _)
  · exact round2_le_one (clamp01_le_one _)
  · exact round2_nonneg (clamp01_nonneg _)
  · exact round2_le_one (clamp01_le_one _)
  · exact round2_nonneg (div_nonneg (Nat.cast_nonneg _) (by positivity))

/-- C2 counterexample: with five undos and no strokes the redraw rate of
the payload is 5, which is outside [0, 1], refuting the claim that it lies
in the unit interval. -/
theorem c2_counterexample :
    1 < (metricsPayload mRedraw 30 "live" 0 0 0).redraw_rate := by
  have h : (metricsPayload mRedraw 30 "live" 0 0 0).redraw_rate = round2 5 := by
    simp [metricsPayload, mRedraw]
  rw [h, round2, show (100 * (5 : ℚ)) = ((500 : ℕ) : ℚ) by norm_num, round_natCast]
  norm_num

/-- C8: panic_detected holds exactly when time_remaining_pct
(= timeLeft / 60) is strictly below 0.15 and averageSpeed is strictly
above 120; at the boundary timeLeft = 9 (pct exactly 0.15) it is false for
every speed, and at averageSpeed exactly 120 it is false for every
timeLeft. -/
theorem c8_panic_iff (m : DrawingMetrics) (timeLeft : ℚ) (phase : String)
    (now lastCommentTime : ℚ) (commentCount : ℕ) :
    ((metricsPayload m timeLeft phase now lastCommentTime commentCount).panic_detected = true
      ↔ (timeLeft / 60 < 15 / 100 ∧ 120 < m.averageSpeed))
    ∧ (metricsPayload m 9 phase now lastCommentTime commentCount).panic_detected = false
    ∧ (metricsPayload { m with averageSpeed := 120 } timeLeft phase now lastCommentTime
        commentCount).panic_detected = false := by
  refine ⟨?_, ?_, ?_⟩
  · simp [metricsPayload]
  · simp [metricsPayload]
    norm_num
  · simp [metricsPayload]

/-- saveState on a live surface always leaves the pushed snapshot on top of
the undo stack and an empty redo stack, whether or not the oldest entry was
evicted. -/
theorem saveState_spec (c : CanvasModel) (s : String) (h : c.surface = some s) :
    ∃ tail, saveState c = { c with undoStack := s :: tail, redoStack := [] } := by
  cases hu : c.undoStack with
  | nil =>
    refine ⟨[], ?_⟩
    simp [saveState, h, hu, MAX_HISTORY]
  | cons a t =>
    by_cases hlen : MAX_HISTORY < (s :: a :: t).length
    · refine ⟨(a :: t).dropLast, ?_⟩
      simp only [saveState, h, hu]
      rw [if_pos hlen, List.dropLast_cons₂]
    · refine ⟨a :: t, ?_⟩
      simp only [saveState, h, hu]
      rw [if_neg hlen]

/-- C4: on a live surface showing snapshot s, saveState followed
immediately by undo restores exactly s (and s is what saveState left on
top of the undo stack); and whenever undo applies, popping snapshot p, an
immediately following redo restores exactly the pre-undo surface s, puts p
back on top of the undo stack, and returns the redo stack to its pre-undo
contents. -/
theorem c4_roundtrip (c : CanvasModel) (s : String) (h : c.surface = some s) :
    ((undo (saveState c)).surface = some s
      ∧ (saveState c).undoStack.head? = some s)
    ∧ (∀ p rest, c.undoStack = p :: rest →
        (undo c).surface = some p
        ∧ (redo (undo c)).surface = some s
        ∧ (redo (undo c)).undoStack = p :: rest
        ∧ (redo (undo c)).redoStack = c.redoStack) := by
  constructor
  · obtain ⟨tail, hs⟩ := saveState_spec c s h
    rw [hs]
    constructor
    · simp [undo, h]
    · simp
  · intro p rest hstack
    simp [undo, redo, h, hstack]

/-- C4 witness at a concrete one-entry stack. -/
theorem c4_roundtrip_witness :
    (undo (saveState cRoundTrip)).surface = some "cur"
    ∧ (redo (undo cRoundTrip)).surface = some "cur"
    ∧ (redo (undo cRoundTrip)).undoStack = ["prev"] := by
  have h := c4_roundtrip cRoundTrip "cur" rfl
  exact ⟨h.1.1, (h.2 "prev" [] rfl).2.1, (h.2 "prev" [] rfl).2.2.1⟩

/-- C5 (amended): after every saveState call made while a live surface
exists, the redo stack is empty and an immediately following redo is a
no-op; when the surface is unavailable, saveState is a complete no-op and
in particular leaves a nonempty redo stack untouched (see the
counterexample). -/
theorem c5_save_clears_redo (c : CanvasModel) :
    (∀ s, c.surface = some s →
      (saveState c).redoStack = [] ∧ redo (saveState c) = saveState c)
    ∧ (c.surface = none → saveState c = c) := by
  constructor
  · intro s h
    obtain ⟨tail, hs⟩ := saveState_spec c s h
    rw [hs]
    constructor
    · rfl
    · simp [redo]
  · intro h
    simp [saveState, h]

/-- C5 counterexample: with the surface unavailable, saveState leaves the
pending redo entry in place, refuting the claim that every saveState call
empties the redo stack. -/
theorem c5_counterexample : (saveState cNoSurface).redoStack ≠ [] := by decide

/-- C5 witness at concrete states with and without a live surface. -/
theorem c5_save_clears_redo_witness :
    (saveState cLiveRedo).redoStack = [] ∧ saveState cNoSurface = cNoSurface :=
  ⟨((c5_save_clears_redo cLiveRedo).1 "s" rfl).1,
    (c5_save_clears_redo cNoSurface).2 rfl⟩

/-- C6: undo on an empty undo stack and redo on an empty redo stack are
silent no-ops leaving the whole canvas state, both stacks and every
metrics field (undoCount included) unchanged. -/
theorem c6_empty_noop (c : CanvasModel) :
    (c.undoStack = [] → undo c = c) ∧ (c.redoStack = [] → redo c = c) := by
  constructor
  · intro h
    cases hs : c.surface <;> simp [undo, h, hs]
  · intro h
    cases hs : c.surface <;> simp [redo, h, hs]

/-- C6 witness at a concrete empty-stack state. -/
theorem c6_empty_noop_witness :
    undo cEmptyStacks = cEmptyStacks ∧ redo cEmptyStacks = cEmptyStacks :=
  ⟨(c6_empty_noop cEmptyStacks).1 rfl, (c6_empty_noop cEmptyStacks).2 rfl⟩

/-- C9 (amended): with the surface unavailable, getSnapshot returns the
empty string, saveState pushes nothing, and undo and redo are complete
no-ops; clear changes neither surface nor stacks but still increments
clearCount (see the counterexample to the original claim that clear leaves
the metrics untouched). -/
theorem c9_missing_surface (c : CanvasModel) (h : c.surface = none) :
    getSnapshot c = ""
    ∧ saveState c = c
    ∧ undo c = c
    ∧ redo c = c
    ∧ clear c =
        { c with metrics := { c.metrics with clearCount := c.metrics.clearCount + 1 } } := by
  have hsave : saveState c = c := by simp [saveState, h]
  refine ⟨?_, hsave, ?_, ?_, ?_⟩
  · simp [getSnapshot, h]
  · cases hu : c.undoStack <;> simp [undo, h, hu]
  · cases hr : c.redoStack <;> simp [redo, h, hr]
  · simp [clear, hsave, h]

/-- C9 counterexample: with the surface unavailable, clear still bumps
clearCount, so it is not a metrics-preserving no-op. -/
theorem c9_counterexample :
    (clear cNoSurface).metrics.clearCount ≠ cNoSurface.metrics.clearCount := by decide

/-- C9 witness at a concrete surfaceless state. -/
theorem c9_missing_surface_witness :
    getSnapshot cNoSurface = "" ∧ undo cNoSurface = cNoSurface :=
  ⟨(c9_missing_surface cNoSurface rfl).1, (c9_missing_surface cNoSurface rfl).2.2.1⟩

/-- C10: redo, whether applied or a no-op, changes no metrics field: the
whole StrokeMetrics record (undoCount, strokeCount, clearCount,
totalDrawingTime, averageSpeed, hesitationSeconds, lastStrokeTime) is
untouched. -/
theorem c10_redo_metrics (c : CanvasModel) : (redo c).metrics = c.metrics := by
  cases hr : c.redoStack <;> cases hs : c.surface <;> simp [redo, hr, hs]

/-- C7: getMetrics with no stroke in progress recomputes hesitationSeconds
as (now − lastStrokeTime) / 1000 (ms to seconds), stores exactly that
field and returns the copy, with no other side effect; mid-stroke it
returns the stored metrics unchanged and has no side effect at all. -/
theorem c7_getMetrics (c : CanvasModel) (now : ℚ) :
    (c.isDrawing = false →
      (getMetrics c now).1.hesitationSeconds = (now - c.metrics.lastStrokeTime) / 1000
      ∧ (getMetrics c now).1 =
          { c.metrics with hesitationSeconds := (now - c.metrics.lastStrokeTime) / 1000 }
      ∧ (getMetrics c now).2 = { c with metrics := (getMetrics c now).1 })
    ∧ (c.isDrawing = true →
      (getMetrics c now).1 = c.metrics ∧ (getMetrics c now).2 = c) := by
  constructor <;> intro h <;> simp [getMetrics, h]

/-- C7 witness: at time 5000 an idle canvas with lastStrokeTime 1000
reports 4 seconds of hesitation, and a mid-stroke canvas reports its
stored metrics unchanged. -/
theorem c7_getMetrics_witness :
    (getMetrics cIdle 5000).1.hesitationSeconds = (5000 - cIdle.metrics.lastStrokeTime) / 1000
    ∧ (getMetrics cMidStroke 5000).1 = cMidStroke.metrics :=
  ⟨((c7_getMetrics cIdle 5000).1 rfl).1, ((c7_getMetrics cMidStroke 5000).2 rfl).1⟩

/-- The combined size of the two history stacks never grows past
MAX_HISTORY under any single operation: saveState caps the undo stack and
empties the redo stack, undo and redo move exactly one snapshot between
stacks, clear behaves as saveState, and a surface mutation touches neither
stack. -/
theorem applyOp_stack_bound (c : CanvasModel) (op : Op)
    (h : c.undoStack.length + c.redoStack.length ≤ MAX_HISTORY) :
    (applyOp c op).undoStack.length + (applyOp c op).redoStack.length ≤ MAX_HISTORY := by
  have hsave : ∀ d : CanvasModel, d.undoStack.length + d.redoStack.length ≤ MAX_HISTORY →
      (saveState d).undoStack.length + (saveState d).redoStack.length ≤ MAX_HISTORY := by
    intro d hd
    cases hs : d.surface with
    | none => simpa [saveState, hs] using hd
    | some s =>
      simp only [saveState, hs]
      by_cases hlen : MAX_HISTORY < (s :: d.undoStack).length
      · rw [if_pos hlen]
        simp only [List.length_dropLast, List.length_cons, List.length_nil] at *
        omega
      · rw [if_neg hlen]
        simp only [List.length_cons, List.length_nil] at *
        omega
  cases op with
  | save => exact hsave c h
  | undoOp =>
    cases hu : c.undoStack with
    | nil => simpa [applyOp, undo, hu] using h
    | cons p rest =>
      cases hs : c.surface with
      | none => simpa [applyOp, undo, hu, hs] using h
      | some cur =>
        simp only [applyOp, undo, hu, hs, List.length_cons]
        simp only [hu, List.length_cons] at h
        omega
  | redoOp =>
    cases hr : c.redoStack with
    | nil => simpa [applyOp, redo, hr] using h
    | cons n rest =>
      cases hs : c.surface with
      | none => simpa [applyOp, redo, hr, hs] using h
      | some cur =>
        simp only [applyOp, redo, hr, hs, List.length_cons]
        simp only [hr, List.length_cons] at h
        omega
  | clearOp =>
    have h1 := hsave c h
    simp only [applyOp, clear]
    cases hs : (saveState c).surface <;> simpa [hs] using h1
  | mutate s => simpa [applyOp] using h

/-- Running any operation sequence preserves the combined stack bound. -/
theorem run_stack_bound (ops : List Op) (c : CanvasModel)
    (h : c.undoStack.length + c.redoStack.length ≤ MAX_HISTORY) :
    (run c ops).undoStack.length + (run c ops).redoStack.length ≤ MAX_HISTORY := by
  induction ops generalizing c with
  | nil => simpa [run] using h
  | cons op ops ih =>
    rw [run]
    exact ih (applyOp c op) (applyOp_stack_bound c op h)

set_option maxRecDepth 20000 in
/-- C3: starting from a freshly mounted canvas (empty stacks), no sequence
of saveState, undo, redo, clear and surface-mutation operations ever grows
the undo stack past MAX_HISTORY = 50 — the bound survives redo even though
redo pushes without a length check; and pushing 51 successive states
retains exactly the 50 most recent ones with the oldest evicted first. -/
theorem c3_history_bound :
    (∀ (t0 : ℚ) (ops : List Op),
      (run (initialModel t0) ops).undoStack.length ≤ MAX_HISTORY)
    ∧ (run (initialModel 0) push51Ops).undoStack =
        (List.range MAX_HISTORY).map (fun i => toString (51 - i)) := by
  constructor
  · intro t0 ops
    have h := run_stack_bound ops (initialModel t0) (by simp [initialModel])
    omega
  · decide

/-- Folding the draw handler from a state with a previous point folds the
smoothing step over the consecutive distances, starting from the current
averageSpeed. -/
theorem runDraw_foldl (ps : List (ℝ × ℝ)) :
    ∀ (p : ℝ × ℝ) (a : ℝ),
      (runDraw { lastPos := some p, averageSpeed := a } ps).averageSpeed =
        (distList p ps).foldl (fun a d => (a + d) / 2) a := by
  induction ps with
  | nil =>
    intro p a
    simp [runDraw, distList]
  | cons q ps ih =>
    intro p a
    simp only [runDraw, draw, distList, euclid, List.foldl_cons]
    exact ih q _

/-- C1: within a stroke starting from averageSpeed 0 and no previous
point, the averageSpeed after the pointer samples is exactly the smoothing
recurrence a0 = 0, an = (a(n-1) + dn) / 2 applied to the consecutive
Euclidean distances; on the concrete collinear samples with distances
[10, 20, 30] the value progresses 5, then 12.5, then 21.25. -/
theorem c1_averageSpeed_recurrence :
    (∀ ps : List (ℝ × ℝ),
      (runDraw { lastPos := none, averageSpeed := 0 } ps).averageSpeed =
        avgRec (pointDists ps))
    ∧ pointDists samplePts = [10, 20, 30]
    ∧ (runDraw { lastPos := none, averageSpeed := 0 } (samplePts.take 2)).averageSpeed = 5
    ∧ (runDraw { lastPos := none, averageSpeed := 0 } (samplePts.take 3)).averageSpeed = 25 / 2
    ∧ (runDraw { lastPos := none, averageSpeed := 0 } samplePts).averageSpeed = 85 / 4 := by
  have key : ∀ ps : List (ℝ × ℝ),
      (runDraw { lastPos := none, averageSpeed := 0 } ps).averageSpeed =
        avgRec (pointDists ps) := by
    intro ps
    cases ps with
    | nil => simp [runDraw, pointDists, avgRec]
    | cons p ps =>
      simp only [runDraw, draw, pointDists, avgRec]
      exact runDraw_foldl ps p 0
  have hd1 : euclid (0, 0) (10, 0) = 10 := by
    simp only [euclid]
    rw [show ((10 : ℝ) - 0) ^ 2 + ((0 : ℝ) - 0) ^ 2 = 10 ^ 2 by norm_num]
    exact Real.sqrt_sq (by norm_num)
  have hd2 : euclid (10, 0) (30, 0) = 20 := by
    simp only [euclid]
    rw [show ((30 : ℝ) - 10) ^ 2 + ((0 : ℝ) - 0) ^ 2 = 20 ^ 2 by norm_num]
    exact Real.sqrt_sq (by norm_num)
  have hd3 : euclid (30, 0) (60, 0) = 30 := by
    simp only [euclid]
    rw [show ((60 : ℝ) - 30) ^ 2 + ((0 : ℝ) - 0) ^ 2 = 30 ^ 2 by norm_num]
    exact Real.sqrt_sq (by norm_num)
  have hfull : pointDists samplePts = [10, 20, 30] := by
    simp only [samplePts, pointDists, distList, hd1, hd2, hd3]
  have htake2 : samplePts.take 2 = [(0, 0), (10, 0)] := by
    simp [samplePts]
  have htake3 : samplePts.take 3 = [(0, 0), (10, 0), (30, 0)] := by
    simp [samplePts]
  refine ⟨key, hfull, ?_, ?_, ?_⟩
  · rw [key, htake2]
    show avgRec (pointDists [(0, 0), (10, 0)]) = 5
    simp only [pointDists, distList, hd1, avgRec, List.foldl_cons, List.foldl_nil]
    norm_num
  · rw [key, htake3]
    show avgRec (pointDists [(0, 0), (10, 0), (30, 0)]) = 25 / 2
    simp only [pointDists, distList, hd1, hd2, avgRec, List.foldl_cons, List.foldl_nil]
    norm_num
  · rw [key, hfull]
    simp only [avgRec, List.foldl_cons, List.foldl_nil]
    norm_num
